import Mathlib

/-!
Shallow embedding of `.github/scripts/post_to_reddit.py`: a script that reads
release metadata and Reddit credentials from the environment, derives a post
title and body, and submits one post to the subreddit `TodayRSS`.

The environment is modelled as a partial map from variable names to strings
(`os.environ.get` returns `none` for an unset variable).  The Reddit service
(`praw`) is modelled as an oracle `Service` with two operations: constructing
the authenticated client and submitting a post, each of which may raise a
PRAW-specific error or any other error (the two `except` arms of the script).
`run` returns the exit code, the printed lines, and the trace of service
calls actually made.
-/

/-- An environment: `os.environ.get name` is `env name`. -/
def Env : Type := String → Option String

/-- Truthiness of `os.environ.get` results as Python sees them in
`all([...])`: `None` and the empty string are falsy. -/
def truthy : Option String → Bool
  | none => false
  | some s => !s.isEmpty

/-- The four Reddit credentials passed to `praw.Reddit`. -/
structure Credentials where
  client_id : String
  client_secret : String
  username : String
  password : String
deriving Repr, DecidableEq

/-- Errors the try-block can raise: `praw.exceptions.PRAWException` or any
other exception, each carrying its printed message. -/
inductive Err where
  | praw (msg : String)
  | other (msg : String)
deriving Repr, DecidableEq

/-- Oracle for the external Reddit service: client construction and post
submission, each of which may raise.  `submit` returns the permalink. -/
structure Service where
  construct : Credentials → String → Except Err Unit
  submit : String → String → String → Except Err String

/-- One observable interaction with the Reddit service. -/
inductive ServiceCall where
  | construct (creds : Credentials) (user_agent : String)
  | submit (subreddit : String) (title : String) (selftext : String)
deriving Repr, DecidableEq

/-- Result of a run: process exit code, printed lines in order, and the
service calls made. -/
structure RunResult where
  exitCode : Nat
  output : List String
  calls : List ServiceCall
deriving Repr, DecidableEq

/-- Line 17: `release_tag = os.environ.get('RELEASE_TAG', 'Unknown Version')`. -/
def releaseTag (env : Env) : String := (env "RELEASE_TAG").getD "Unknown Version"

/-- Line 18: `release_name = os.environ.get('RELEASE_NAME', 'New Release')`. -/
def releaseName (env : Env) : String := (env "RELEASE_NAME").getD "New Release"

/-- Line 19: `release_body = os.environ.get('RELEASE_BODY', '')`. -/
def releaseBody (env : Env) : String := (env "RELEASE_BODY").getD ""

/-- Line 20: `release_url = os.environ.get('RELEASE_URL', '')`. -/
def releaseUrl (env : Env) : String := (env "RELEASE_URL").getD ""

/-- Lines 39-41: the post title.  Start from the fallback
`"Today RSS Reader {release_tag} Released!"` and replace it with
`"{release_name} ({release_tag})"` when `release_name` is truthy and differs
from `release_tag`. -/
def mkTitle (release_name release_tag : String) : String :=
  let post_title := "Today RSS Reader " ++ release_tag ++ " Released!"
  if !release_name.isEmpty && release_name != release_tag then
    release_name ++ " (" ++ release_tag ++ ")"
  else
    post_title

/-- The fixed attribution footer appended last to every post body (line 47). -/
def footer : String := "*This post was automatically generated from the GitHub release*"

/-- Lines 44-47: the post body, built by successive concatenation. -/
def mkBody (release_body release_url : String) : String :=
  let post_body := release_body ++ "\n\n"
  let post_body := post_body ++ ("[View Release on GitHub](" ++ release_url ++ ")\n\n")
  let post_body := post_body ++ "---\n"
  let post_body := post_body ++ footer
  post_body

/-- The credentials as read from the environment (lines 12-15), with `None`
collapsed to `""`; used only on the path where all four are truthy. -/
def theCreds (env : Env) : Credentials :=
  { client_id := (env "REDDIT_CLIENT_ID").getD ""
  , client_secret := (env "REDDIT_CLIENT_SECRET").getD ""
  , username := (env "REDDIT_USERNAME").getD ""
  , password := (env "REDDIT_PASSWORD").getD "" }

/-- Line 35: the user agent string embedding the username. -/
def theUA (env : Env) : String :=
  "GitHub Actions Release Bot for Today RSS Reader by u/" ++ (theCreds env).username

/-- The derived post title for a given environment. -/
def theTitle (env : Env) : String := mkTitle (releaseName env) (releaseTag env)

/-- The derived post body for a given environment. -/
def theBody (env : Env) : String := mkBody (releaseBody env) (releaseUrl env)

/-- Line 23: `not all([client_id, client_secret, username, password])`. -/
def credsMissing (env : Env) : Bool :=
  !(truthy (env "REDDIT_CLIENT_ID") && truthy (env "REDDIT_CLIENT_SECRET")
    && truthy (env "REDDIT_USERNAME") && truthy (env "REDDIT_PASSWORD"))

/-- Output and exit code of one of the two `except` arms (lines 60-65). -/
def handleErr : Err → Nat × List String
  | .praw msg => (1, ["❌ Reddit API error: " ++ msg])
  | .other msg => (1, ["❌ Unexpected error: " ++ msg])

/-- The whole of `main()`: read environment, validate credentials, construct
the client, derive title and body, submit, and report.  `sys.exit(1)` paths
yield exit code 1; falling off the end of `main` yields exit code 0. -/
def run (env : Env) (svc : Service) : RunResult :=
  if credsMissing env then
    { exitCode := 1
    , output :=
        [ "Error: Missing required Reddit API credentials"
        , "Please ensure REDDIT_CLIENT_ID, REDDIT_CLIENT_SECRET, REDDIT_USERNAME, and REDDIT_PASSWORD are set" ]
    , calls := [] }
  else
    let creds := theCreds env
    match svc.construct creds (theUA env) with
    | .error e =>
        let r := handleErr e
        { exitCode := r.1, output := r.2, calls := [ServiceCall.construct creds (theUA env)] }
    | .ok _ =>
        let post_title := theTitle env
        let post_body := theBody env
        let calls := [ServiceCall.construct creds (theUA env),
                      ServiceCall.submit "TodayRSS" post_title post_body]
        match svc.submit "TodayRSS" post_title post_body with
        | .error e =>
            let r := handleErr e
            { exitCode := r.1, output := r.2, calls := calls }
        | .ok permalink =>
            { exitCode := 0
            , output :=
                [ "✅ Successfully posted to r/TodayRSS!"
                , "📝 Post title: " ++ post_title
                , "🔗 Post URL: https://reddit.com" ++ permalink ]
            , calls := calls }

/-- Number of submission calls in a trace. -/
def countSubmits : List ServiceCall → Nat
  | [] => 0
  | .submit _ _ _ :: rest => countSubmits rest + 1
  | .construct _ _ :: rest => countSubmits rest

/-- A service that always succeeds, used to instantiate witnesses. -/
def okService : Service :=
  { construct := fun _ _ => .ok ()
  , submit := fun _ _ _ => .ok "/r/TodayRSS/comments/abc/post/" }

/-- The empty environment: every variable unset. -/
def emptyEnv : Env := fun _ => none

/-! ## Helper lemmas -/

/-- The last character of an append is that of the right part when nonempty. -/
theorem getLast_data_append (s t : String) (h : t.data ≠ []) :
    (s ++ t).data.getLast? = t.data.getLast? := by
  rw [String.data_append]
  exact List.getLast?_append_of_ne_nil _ h

/-- The combined title ends in a parenthesis while the fallback title ends in
an exclamation mark, so they are never equal. -/
theorem combined_ne_fallback (name tag tag2 : String) :
    name ++ " (" ++ tag ++ ")" ≠ "Today RSS Reader " ++ tag2 ++ " Released!" := by
  intro h
  have h1 : (name ++ " (" ++ tag ++ ")").data.getLast? = some (Char.ofNat 41) := by
    rw [getLast_data_append _ ")" (by decide)]; rfl
  have h2 : ("Today RSS Reader " ++ tag2 ++ " Released!").data.getLast? = some (Char.ofNat 33) := by
    rw [getLast_data_append _ " Released!" (by decide)]; rfl
  rw [h, h2] at h1
  exact absurd (Option.some.inj h1) (by decide)

/-- When the name is truthy and differs from the tag the combined format is
produced. -/
theorem mkTitle_of_ne (name tag : String) (h1 : name ≠ "") (h2 : name ≠ tag) :
    mkTitle name tag = name ++ " (" ++ tag ++ ")" := by
  unfold mkTitle
  simp [String.isEmpty_iff, h1, h2]

/-- When the name equals the tag or is empty the fallback format is produced. -/
theorem mkTitle_of_eq_or_empty (name tag : String) (h : name = tag ∨ name = "") :
    mkTitle name tag = "Today RSS Reader " ++ tag ++ " Released!" := by
  unfold mkTitle
  rcases h with h | h <;> simp [h, String.isEmpty_iff]

/-! ## Claims -/

/-- C1: if any of the four credentials is absent or empty, `run` exits with a
non-zero status and makes no call to the Reddit service (no client
construction, authentication, or submission). -/
theorem missing_creds_no_service_call (env : Env) (svc : Service)
    (h : truthy (env "REDDIT_CLIENT_ID") = false ∨
         truthy (env "REDDIT_CLIENT_SECRET") = false ∨
         truthy (env "REDDIT_USERNAME") = false ∨
         truthy (env "REDDIT_PASSWORD") = false) :
    (run env svc).exitCode ≠ 0 ∧ (run env svc).calls = [] := by
  have hm : credsMissing env = true := by
    unfold credsMissing
    rcases h with h | h | h | h <;> simp [h]
  unfold run
  simp [hm]

/-- Witness for C1: with every variable unset, the run exits non-zero and
makes no service call. -/
theorem missing_creds_no_service_call_witness :
    truthy (emptyEnv "REDDIT_CLIENT_ID") = false ∧
    (run emptyEnv okService).exitCode ≠ 0 ∧ (run emptyEnv okService).calls = [] :=
  ⟨rfl, missing_creds_no_service_call emptyEnv okService (Or.inl rfl)⟩

/-- C2 counterexample: with `release_name = ""` and `release_tag = "v1.2.0"`
the fallback title is produced even though the name differs from the tag, so
"fallback iff `release_name = release_tag`" is false as stated. -/
theorem fallback_iff_eq_counterexample :
    ¬ (mkTitle "" "v1.2.0" = "Today RSS Reader " ++ "v1.2.0" ++ " Released!" ↔
       ("" : String) = "v1.2.0") := by
  decide

/-- C2 (amended): the title equals the fallback format
`"Today RSS Reader {release_tag} Released!"` if and only if `release_name`
equals `release_tag` or `release_name` is empty; in every other case the
combined format `"{release_name} ({release_tag})"` is used. -/
theorem fallback_iff_eq_or_empty (name tag : String) :
    (mkTitle name tag = "Today RSS Reader " ++ tag ++ " Released!" ↔
      (name = tag ∨ name = "")) ∧
    (mkTitle name tag = name ++ " (" ++ tag ++ ")" ∨
      mkTitle name tag = "Today RSS Reader " ++ tag ++ " Released!") := by
  constructor
  · constructor
    · intro h
      by_contra hc
      push_neg at hc
      rw [mkTitle_of_ne name tag hc.2 hc.1] at h
      exact combined_ne_fallback name tag tag h
    · exact mkTitle_of_eq_or_empty name tag
  · by_cases h1 : name = ""
    · exact Or.inr (mkTitle_of_eq_or_empty name tag (Or.inr h1))
    · by_cases h2 : name = tag
      · exact Or.inr (mkTitle_of_eq_or_empty name tag (Or.inl h2))
      · exact Or.inl (mkTitle_of_ne name tag h1 h2)

/-- C3: the derived title is the combined format exactly when `release_name`
is non-empty and differs from `release_tag`, and the fallback otherwise; in
particular the two release scenarios of the specification hold. -/
theorem title_derivation (name tag : String) :
    mkTitle name tag =
      (if name ≠ "" ∧ name ≠ tag then name ++ " (" ++ tag ++ ")"
       else "Today RSS Reader " ++ tag ++ " Released!") ∧
    mkTitle "Spring Update" "v1.2.0" = "Spring Update (v1.2.0)" ∧
    mkTitle "v1.2.0" "v1.2.0" = "Today RSS Reader v1.2.0 Released!" := by
  refine ⟨?_, rfl, rfl⟩
  by_cases h1 : name = ""
  · rw [mkTitle_of_eq_or_empty name tag (Or.inr h1)]
    simp [h1]
  · by_cases h2 : name = tag
    · rw [mkTitle_of_eq_or_empty name tag (Or.inl h2)]
      simp [h2]
    · rw [mkTitle_of_ne name tag h1 h2]
      simp [h1, h2]

/-- C4: the derived body always ends with the fixed attribution footer, and
whenever `release_url` is non-empty the body contains it, inside the link
line that follows `release_body` and precedes the separator and footer. -/
theorem body_footer_and_url (rb url : String) :
    (∃ p, mkBody rb url = p ++ footer) ∧
    (url ≠ "" →
      mkBody rb url =
        (rb ++ "\n\n") ++ ("[View Release on GitHub](" ++
          (url ++ (")\n\n" ++ ("---\n" ++ footer))))) := by
  constructor
  · exact ⟨(rb ++ "\n\n") ++ ("[View Release on GitHub](" ++ url ++ ")\n\n") ++ "---\n",
      by simp only [mkBody, String.append_assoc]⟩
  · intro _
    simp only [mkBody, String.append_assoc]

/-- Witness for C4: a concrete non-empty URL appears in the body between the
link-line opening and the separator and footer. -/
theorem body_footer_and_url_witness :
    ("https://github.com/whyisjake/today/releases/tag/v1.2.0" : String) ≠ "" ∧
    mkBody "Notes" "https://github.com/whyisjake/today/releases/tag/v1.2.0" =
      ("Notes" ++ "\n\n") ++ ("[View Release on GitHub](" ++
        ("https://github.com/whyisjake/today/releases/tag/v1.2.0" ++
          (")\n\n" ++ ("---\n" ++ footer)))) :=
  ⟨by decide,
   (body_footer_and_url "Notes" "https://github.com/whyisjake/today/releases/tag/v1.2.0").2
     (by decide)⟩

/-- C8: when `release_url` is empty the link line is still emitted, with an
empty link target, between `release_body` and the separator and footer. -/
theorem empty_url_link_line (rb : String) :
    mkBody rb "" =
      (((rb ++ "\n\n") ++ "[View Release on GitHub]()\n\n") ++ "---\n") ++ footer := by
  simp [mkBody]

/-- C5: the run exits with status 0 exactly when the submission succeeds
(credentials present, client constructed, submit returns a permalink);
every failure path yields status 1; and no run ever makes more than one
submission attempt (no retry). -/
theorem exit_code_classification (env : Env) (svc : Service) :
    ((run env svc).exitCode = 0 ↔
      credsMissing env = false ∧
      svc.construct (theCreds env) (theUA env) = Except.ok () ∧
      ∃ pl, svc.submit "TodayRSS" (theTitle env) (theBody env) = Except.ok pl) ∧
    ((run env svc).exitCode = 0 ∨ (run env svc).exitCode = 1) ∧
    countSubmits (run env svc).calls ≤ 1 := by
  unfold run
  by_cases hm : credsMissing env
  · simp [hm, countSubmits]
  · simp only [Bool.not_eq_true] at hm
    simp only [hm, Bool.false_eq_true, if_false]
    cases hc : svc.construct (theCreds env) (theUA env) with
    | error e => cases e <;> simp [handleErr, countSubmits, hc]
    | ok u =>
      cases u
      cases hs : svc.submit "TodayRSS" (theTitle env) (theBody env) with
      | error e => cases e <;> simp [handleErr, countSubmits, hc, hs]
      | ok pl => simp [handleErr, countSubmits, hc, hs]

/-- Whether one string occurs inside another, on the underlying character
lists. -/
def containsSub (s pat : String) : Bool := decide (pat.data <:+: s.data)

set_option maxRecDepth 4096 in
/-- C6: when a credential is missing, the run prints a diagnostic line that
names all four required environment variables, and exits non-zero. -/
theorem diagnostic_names_all_vars (env : Env) (svc : Service)
    (h : credsMissing env = true) :
    (run env svc).exitCode ≠ 0 ∧
    ∃ line, line ∈ (run env svc).output ∧
      containsSub line "REDDIT_CLIENT_ID" = true ∧
      containsSub line "REDDIT_CLIENT_SECRET" = true ∧
      containsSub line "REDDIT_USERNAME" = true ∧
      containsSub line "REDDIT_PASSWORD" = true := by
  refine ⟨?_,
    "Please ensure REDDIT_CLIENT_ID, REDDIT_CLIENT_SECRET, REDDIT_USERNAME, and REDDIT_PASSWORD are set",
    ?_, ?_, ?_, ?_, ?_⟩
  · simp [run, h]
  · simp [run, h]
  all_goals decide

/-- Witness for C6: with every variable unset, the diagnostic names all four
credentials. -/
theorem diagnostic_names_all_vars_witness :
    credsMissing emptyEnv = true ∧
    ((run emptyEnv okService).exitCode ≠ 0 ∧
     ∃ line, line ∈ (run emptyEnv okService).output ∧
       containsSub line "REDDIT_CLIENT_ID" = true ∧
       containsSub line "REDDIT_CLIENT_SECRET" = true ∧
       containsSub line "REDDIT_USERNAME" = true ∧
       containsSub line "REDDIT_PASSWORD" = true) :=
  ⟨rfl, diagnostic_names_all_vars emptyEnv okService rfl⟩

/-- C7: an unset release variable takes its documented default:
`RELEASE_TAG` defaults to `"Unknown Version"`, `RELEASE_NAME` to
`"New Release"`, and `RELEASE_BODY` and `RELEASE_URL` to the empty string. -/
theorem release_defaults (env : Env) :
    (env "RELEASE_TAG" = none → releaseTag env = "Unknown Version") ∧
    (env "RELEASE_NAME" = none → releaseName env = "New Release") ∧
    (env "RELEASE_BODY" = none → releaseBody env = "") ∧
    (env "RELEASE_URL" = none → releaseUrl env = "") := by
  refine ⟨fun h => ?_, fun h => ?_, fun h => ?_, fun h => ?_⟩ <;>
    simp [releaseTag, releaseName, releaseBody, releaseUrl, h]

/-- Witness for C7: the empty environment takes all four defaults. -/
theorem release_defaults_witness :
    emptyEnv "RELEASE_TAG" = none ∧ releaseTag emptyEnv = "Unknown Version" ∧
    emptyEnv "RELEASE_NAME" = none ∧ releaseName emptyEnv = "New Release" ∧
    emptyEnv "RELEASE_BODY" = none ∧ releaseBody emptyEnv = "" ∧
    emptyEnv "RELEASE_URL" = none ∧ releaseUrl emptyEnv = "" :=
  ⟨rfl, (release_defaults emptyEnv).1 rfl,
   rfl, (release_defaults emptyEnv).2.1 rfl,
   rfl, (release_defaults emptyEnv).2.2.1 rfl,
   rfl, (release_defaults emptyEnv).2.2.2 rfl⟩

/-- An environment with release metadata set but no credentials, used to show
the missing-credentials outcome ignores release fields. -/
def releaseOnlyEnv : Env := fun k =>
  if k = "RELEASE_TAG" then some "v9.9.9"
  else if k = "RELEASE_NAME" then some "Big Update"
  else if k = "RELEASE_BODY" then some "Lots of changes"
  else if k = "RELEASE_URL" then some "https://example.com/release"
  else none

/-- C9: any two runs that are each missing a credential print the same
diagnostic and exit with the same status, whatever the release metadata and
the service: the missing-credentials outcome does not depend on them. -/
theorem missing_creds_output_independent (env1 env2 : Env) (svc1 svc2 : Service)
    (h1 : credsMissing env1 = true) (h2 : credsMissing env2 = true) :
    (run env1 svc1).output = (run env2 svc2).output ∧
    (run env1 svc1).exitCode = (run env2 svc2).exitCode := by
  simp [run, h1, h2]

/-- Witness for C9: the empty environment and one with all release fields set
produce the same diagnostic and exit status. -/
theorem missing_creds_output_independent_witness :
    credsMissing emptyEnv = true ∧ credsMissing releaseOnlyEnv = true ∧
    (run emptyEnv okService).output = (run releaseOnlyEnv okService).output ∧
    (run emptyEnv okService).exitCode = (run releaseOnlyEnv okService).exitCode :=
  ⟨rfl, by decide,
   missing_creds_output_independent emptyEnv releaseOnlyEnv okService okService rfl (by decide)⟩

/-- C10: when neither `RELEASE_NAME` nor `RELEASE_TAG` is set, the two
defaults differ, so the combined title `"New Release (Unknown Version)"` is
derived and the fallback format is not used. -/
theorem default_title_combined (env : Env)
    (hn : env "RELEASE_NAME" = none) (ht : env "RELEASE_TAG" = none) :
    ("New Release" : String) ≠ "Unknown Version" ∧
    theTitle env = "New Release (Unknown Version)" ∧
    theTitle env ≠ "Today RSS Reader " ++ releaseTag env ++ " Released!" := by
  have h1 : releaseName env = "New Release" := by simp [releaseName, hn]
  have h2 : releaseTag env = "Unknown Version" := by simp [releaseTag, ht]
  refine ⟨by decide, ?_, ?_⟩
  · rw [theTitle, h1, h2]
    rfl
  · rw [theTitle, h1, h2]
    decide

/-- Witness for C10: in the empty environment the derived title is
`"New Release (Unknown Version)"`. -/
theorem default_title_combined_witness :
    emptyEnv "RELEASE_NAME" = none ∧ emptyEnv "RELEASE_TAG" = none ∧
    (("New Release" : String) ≠ "Unknown Version" ∧
     theTitle emptyEnv = "New Release (Unknown Version)" ∧
     theTitle emptyEnv ≠ "Today RSS Reader " ++ releaseTag emptyEnv ++ " Released!") :=
  ⟨rfl, rfl, default_title_combined emptyEnv rfl rfl⟩
